import Mathlib

/-!
Verification of the Stroop-task contrast toolkit marker subsystem.

The development shallowly embeds the two Python source files:
* `src/lsl_receiver.py` — `RobustStroopReceiver` (marker decoding, CODE/description
  pairing, session persistence);
* `src/unnamed/part_000` — `ResilientOutlet.push_sample`, `ResilientOutlet.create_outlet`
  and `send_event_code` (resilient publisher and marker codec).

Times (wall-clock reads, stream timestamps) are modelled in integer
milliseconds and threaded as explicit parameters; the source's float-second
literals become exact integers: the 0.1 s pairing window is 100, the 3.0 s
recovery threshold is 3000, the codec's 0.001 s epsilon is 1.
String operations are re-implemented structurally on `List Char` so
that all concrete evaluations reduce inside the kernel; each mirrors the exact
Python semantics used by the source (`startswith`, substring containment via
`in`, `str.split` on a separator, `str.replace`).
-/

namespace Stroop

/-- `listIsInit pre l` is true when `pre` is an initial segment of `l`
(the character-list form of Python `l.startswith(pre)`). -/
def listIsInit : List Char → List Char → Bool
  | [], _ => true
  | _ :: _, [] => false
  | a :: as, b :: bs => a == b && listIsInit as bs

/-- `listHasSub pat l` is true when `pat` occurs as a contiguous sublist of `l`
(the character-list form of Python `pat in l`). -/
def listHasSub (pat : List Char) : List Char → Bool
  | [] => listIsInit pat []
  | c :: rest => listIsInit pat (c :: rest) || listHasSub pat rest

/-- Python `s.startswith(pre)`. -/
def strStartsWith (s pre : String) : Bool := listIsInit pre.data s.data

/-- Python `pat in s` (substring containment). -/
def containsSub (s pat : String) : Bool := listHasSub pat.data s.data

/-- Python `s.endswith(suffixStr)`. Used only to state properties of payload
shapes; the source itself never calls `endswith`. -/
def strEndsWith (s suffixStr : String) : Bool :=
  listIsInit suffixStr.data.reverse s.data.reverse

/-- Python `str.split(sep)` on character lists: every occurrence of `sep`
separates, empty fields are kept, and the empty string yields one empty field. -/
def listSplit (sep : Char) : List Char → List (List Char)
  | [] => [[]]
  | c :: rest =>
    match listSplit sep rest with
    | [] => [[]]
    | h :: t => if c == sep then [] :: h :: t else (c :: h) :: t

/-- Python `s.split(sep)` for a single-character separator. -/
def pySplit (s : String) (sep : Char) : List String :=
  (listSplit sep s.data).map String.mk

/-- One step bound of `listReplace`: fuel-indexed left-to-right non-overlapping
replacement of a non-empty pattern, the semantics of Python `str.replace`. -/
def listReplace (pat rep : List Char) : Nat → List Char → List Char
  | _, [] => []
  | 0, l => l
  | Nat.succ fuel, c :: rest =>
    if listIsInit pat (c :: rest) && !pat.isEmpty then
      rep ++ listReplace pat rep fuel (List.drop (pat.length - 1) rest)
    else
      c :: listReplace pat rep fuel rest

/-- Python `s.replace(pat, rep)` (all occurrences, left to right). -/
def pyReplace (s pat rep : String) : String :=
  String.mk (listReplace pat.data rep.data s.data.length s.data)

/-- Marker categories assigned by `RobustStroopReceiver.process_marker`
(`src/lsl_receiver.py` lines 69-108). -/
inductive MarkerType
  | CODE | TRIAL | RESPONSE | BLOCK | NEUTRAL | EXPERIMENT | SYSTEM
deriving DecidableEq, BEq, Repr

/-- One structured record built by `process_marker`. The Python dict fields
`timestamp`, `elapsed_seconds`, `marker_content`, `numeric_code`, `trial_color`,
`response_key`, `response_correct`, `marker_type` are carried; `local_time` is a
wall-clock display string with no logical content and is not modelled. -/
structure Record where
  timestamp : ℤ
  elapsed_seconds : ℤ
  marker_content : String
  marker_type : MarkerType
  numeric_code : Option String
  trial_color : Option String
  response_key : Option String
  response_correct : Option Bool
deriving DecidableEq, BEq, Repr

/-- Mutable state of `RobustStroopReceiver` (`__init__`, lines 11-17):
session start clock, the pending-code cache (`last_code`, `last_code_time`)
and the accumulated record list `data`. -/
structure ReceiverState where
  session_start : ℤ
  last_code : Option String
  last_code_time : ℤ
  data : List Record
deriving DecidableEq, Repr

/-- `RobustStroopReceiver.__init__` field defaults. -/
def initState : ReceiverState :=
  { session_start := 0, last_code := none, last_code_time := 0, data := [] }

/-- `self.pairing_window = 0.1` seconds, i.e. 100 ms. -/
def pairing_window : ℤ := 100

/-- The guard `if self.last_code and (time.time() - self.last_code_time) <
self.pairing_window` (`src/lsl_receiver.py` line 82). Python truthiness of
`self.last_code` is mirrored: a `None` or empty cached string never pairs. -/
def pairCond (st : ReceiverState) (now : ℤ) : Bool :=
  match st.last_code with
  | some c => c != "" && decide (now - st.last_code_time < pairing_window)
  | none => false

/-- `RobustStroopReceiver.process_marker(marker, timestamp)`
(`src/lsl_receiver.py` lines 55-110). `now` is the value of `time.time()` during
the call (the code reads it for `elapsed`, for caching a CODE arrival and for
the pairing test). Returns the record built and the updated receiver state. -/
def process_marker (st : ReceiverState) (marker : String) (timestamp now : ℤ) :
    Record × ReceiverState :=
  let elapsed := now - st.session_start
  let base : Record :=
    { timestamp := timestamp, elapsed_seconds := elapsed, marker_content := marker,
      marker_type := MarkerType.SYSTEM, numeric_code := none, trial_color := none,
      response_key := none, response_correct := none }
  if strStartsWith marker "CODE_" then
    let code := pyReplace marker "CODE_" ""
    ({ base with marker_type := MarkerType.CODE, numeric_code := some code },
     { st with last_code := some code, last_code_time := now })
  else
    let pairNow : Bool := pairCond st now
    let rec1 : Record :=
      if pairNow then { base with numeric_code := st.last_code } else base
    let st1 : ReceiverState :=
      if pairNow then { st with last_code := none } else st
    let rec2 : Record :=
      if containsSub marker "trial_start_" then
        { rec1 with
          marker_type := MarkerType.TRIAL
          trial_color :=
            (["red", "green", "blue", "yellow"] : List String).find?
              (fun c => containsSub marker c) }
      else if containsSub marker "response_" then
        let parts := pySplit marker '_'
        { rec1 with
          marker_type := MarkerType.RESPONSE
          response_key := parts[1]?
          response_correct := some (containsSub marker "correct") }
      else if containsSub marker "block_" then
        { rec1 with marker_type := MarkerType.BLOCK }
      else if containsSub marker "neutral_block" then
        { rec1 with marker_type := MarkerType.NEUTRAL }
      else if marker = "experiment_start" ∨ marker = "experiment_end" then
        { rec1 with marker_type := MarkerType.EXPERIMENT }
      else
        { rec1 with marker_type := MarkerType.SYSTEM }
    (rec2, st1)

/-- One observed iteration of the `while True` ingest loop in
`RobustStroopReceiver.run` (`src/lsl_receiver.py` lines 161-179):
`sample m ts now` — `pull_sample` returned a marker (`ts` its LSL timestamp,
`now` the wall clock while `process_marker` runs); `emptyPull` — `pull_sample`
timed out with no sample; `interrupt` — `KeyboardInterrupt` raised (the loop
breaks); `streamError r` — `pull_sample` raised a stream fault, after which
`connect_to_stream(10)` either succeeded at wall-clock time `t` (`r = some t`,
resetting `session_start`) or failed (`r = none`, the loop breaks). -/
inductive LoopEvent
  | sample (marker : String) (timestamp now : ℤ)
  | emptyPull
  | interrupt
  | streamError (reconnect : Option ℤ)
deriving DecidableEq, Repr

/-- The body of the `while True` loop in `RobustStroopReceiver.run`, folded over
a finite trace of observed iterations. Events after a `break` (interrupt, or a
stream error whose recovery failed) are ignored, exactly as the Python loop
never reaches them. -/
def runLoop : ReceiverState → List LoopEvent → ReceiverState
  | st, [] => st
  | st, LoopEvent.sample m ts now :: rest =>
    let pr := process_marker st m ts now
    runLoop { pr.2 with data := pr.2.data ++ [pr.1] } rest
  | st, LoopEvent.emptyPull :: rest => runLoop st rest
  | st, LoopEvent.interrupt :: _ => st
  | st, LoopEvent.streamError (some t) :: rest =>
    runLoop { st with session_start := t } rest
  | st, LoopEvent.streamError none :: _ => st

/-- The CSV header written by `save_data`: the key set of the first record's
dict, in insertion order (`src/lsl_receiver.py` lines 58-67 build eight keys,
then `marker_type` is added by `record.update`/assignment in every branch). -/
def recordFields : List String :=
  ["timestamp", "local_time", "elapsed_seconds", "marker_content",
   "numeric_code", "trial_color", "response_key", "response_correct",
   "marker_type"]

/-- Observable outcome of `RobustStroopReceiver.save_data`
(`src/lsl_receiver.py` lines 131-153): either the early return with
"No data to save" (no CSV, no summary), or a CSV write of `rows` data rows
under `header` plus the printed summary (trial count, response count, and
`some` accuracy exactly when the response list is non-empty). -/
inductive SaveOutcome
  | noData
  | saved (header : List String) (rows trials responses : Nat) (accuracy : Option ℚ)
deriving DecidableEq, Repr

/-- `RobustStroopReceiver.save_data` as a function of the accumulated records. -/
def save_data (data : List Record) : SaveOutcome :=
  if data.isEmpty then SaveOutcome.noData
  else
    let trials := data.filter (fun d => d.marker_type == MarkerType.TRIAL)
    let responses := data.filter (fun d => d.marker_type == MarkerType.RESPONSE)
    let correct := (responses.filter (fun r => r.response_correct == some true)).length
    SaveOutcome.saved recordFields data.length trials.length responses.length
      (if responses.isEmpty then none
       else some ((correct : ℚ) / (responses.length : ℚ)))

/-- `RobustStroopReceiver.run` after a successful `connect_to_stream`
(`src/lsl_receiver.py` lines 160-185): the ingest loop runs over the observed
trace, and the `finally` block calls `save_data` exactly once on every exit
path. The second component counts the `save_data` calls made (the single
`finally` call). -/
def run (st0 : ReceiverState) (events : List LoopEvent) : SaveOutcome × Nat :=
  (save_data (runLoop st0 events).data, 1)

/-! ## Publisher (`ResilientOutlet` and `send_event_code`, `src/unnamed/part_000`) -/

/-- A transport handle as seen by `push_sample`: `sendOk` records whether
`outlet.push_sample` on this handle currently succeeds or raises. -/
structure OutletHandle where
  sendOk : Bool
deriving DecidableEq, Repr

/-- `ResilientOutlet` mutable state relevant to `push_sample`
(`src/unnamed/part_000` lines 38-55): the optional transport handle and
`last_successful_send` (initialised to 0). -/
structure PublisherState where
  outlet : Option OutletHandle
  last_successful_send : ℤ
deriving DecidableEq, Repr

/-- The `marker` argument of `push_sample`: either a plain string or a
list/tuple of strings (the only shapes callers pass). -/
inductive MarkerArg
  | str (s : String)
  | seq (xs : List String)
deriving DecidableEq, Repr

/-- The payload normalization at the top of `push_sample`
(`src/unnamed/part_000` lines 76-78): a list or tuple is replaced by its first
element, or by the empty string when it is empty; `str()` of a string is the
string itself. -/
def normalize_marker : MarkerArg → String
  | MarkerArg.str s => s
  | MarkerArg.seq [] => ""
  | MarkerArg.seq (x :: _) => x

/-- Environment of one `push_sample` call: `now` is `time.time()` during the
call, and `recreated` is the outcome of `create_outlet` should recovery be
attempted — `some h` when `create_outlet` returns `True` having installed
handle `h`, `none` when all three creation attempts fail (the method then
returns `False` and leaves `self.outlet` unchanged,
`src/unnamed/part_000` lines 57-68). -/
structure PushEnv where
  now : ℤ
  recreated : Option OutletHandle
deriving DecidableEq, Repr

/-- Result of one `push_sample` call: the returned boolean, the updated
publisher state, the payload strings passed to the transport's send (in order),
and the number of `create_outlet` calls made (recovery attempts). -/
structure PushResult where
  ok : Bool
  state : PublisherState
  wire : List String
  create_calls : Nat
deriving DecidableEq, Repr

/-- `ResilientOutlet.push_sample(marker, timestamp)`
(`src/unnamed/part_000` lines 70-100, identical at lines 751-781). The
function is total: every path ends in a boolean result, mirroring the Python
method which catches every exception and returns `True` or `False`. When
`self.outlet` is `None` the `try` body does nothing and no exception fires, so
the method falls through to `return False` without any recovery. On a send
fault, recovery (one `create_outlet` plus one retry of the send) happens only
when `time.time() - self.last_successful_send > 3.0` (3000 ms here). -/
def push_sample (s : PublisherState) (marker : MarkerArg) (env : PushEnv) :
    PushResult :=
  let marker_str := normalize_marker marker
  match s.outlet with
  | none => { ok := false, state := s, wire := [], create_calls := 0 }
  | some h =>
    if h.sendOk then
      { ok := true, state := { s with last_successful_send := env.now },
        wire := [marker_str], create_calls := 0 }
    else
      if env.now - s.last_successful_send > 3000 then
        match env.recreated with
        | some h2 =>
          if h2.sendOk then
            { ok := true,
              state := { outlet := some h2, last_successful_send := env.now },
              wire := [marker_str, marker_str], create_calls := 1 }
          else
            { ok := false, state := { s with outlet := some h2 },
              wire := [marker_str, marker_str], create_calls := 1 }
        | none =>
          { ok := false, state := s, wire := [marker_str], create_calls := 1 }
      else
        { ok := false, state := s, wire := [marker_str], create_calls := 0 }

/-- Python `f"CODE_{code:03d}"` for a natural `code`: decimal digits zero-padded
to width 3. -/
def pad3 (n : Nat) : String :=
  let s := toString n
  if s.length < 3 then String.mk (List.replicate (3 - s.length) '0') ++ s else s

/-- `send_event_code(outlet, code, description)` of the primary script
(`src/unnamed/part_000` lines 114-135): the payload/timestamp pairs submitted
to `outlet.push_sample`. The retry loop runs its body exactly once, because
`ResilientOutlet.push_sample` never raises — so exactly the tag payload at
`timestamp` and the description payload at `timestamp + 0.001` (one millisecond later) are
submitted. -/
def send_event_code (code : Nat) (description : String) (timestamp : ℤ) :
    List (String × ℤ) :=
  [("CODE_" ++ pad3 code, timestamp), (description, timestamp + 1)]

/-- `send_event_code` of the backup script (`src/unnamed/part_000` lines
795-815): a single payload carrying the bare decimal code, no `CODE_` tag and
no description payload. Kept for reference; the marker codec paired with the
receiver is the primary script's two-payload form above. -/
def send_event_code_backup (code : Nat) (timestamp : ℤ) : List (String × ℤ) :=
  [(toString code, timestamp)]

/-! ## General lemmas about `process_marker` -/

/-- On a payload starting with `CODE_`, `process_marker` takes the early-return
branch: the record is a CODE record carrying the numeric suffix, and the state
caches that suffix together with the processing wall clock. -/
theorem process_marker_code (st : ReceiverState) (m : String) (ts now : ℤ)
    (hm : strStartsWith m "CODE_" = true) :
    (process_marker st m ts now).1.marker_type = MarkerType.CODE ∧
    (process_marker st m ts now).1.numeric_code = some (pyReplace m "CODE_" "") ∧
    (process_marker st m ts now).2 =
      { st with last_code := some (pyReplace m "CODE_" ""), last_code_time := now } := by
  unfold process_marker
  simp [hm]

/-- On a non-CODE payload, the record's `numeric_code` and the state update are
decided entirely by the pairing guard `pairCond`: pairing consumes the cached
code, non-pairing leaves the state untouched. -/
theorem process_marker_noncode (st : ReceiverState) (m : String) (ts now : ℤ)
    (hm : strStartsWith m "CODE_" = false) :
    (process_marker st m ts now).1.numeric_code =
      (if pairCond st now then st.last_code else none) ∧
    (process_marker st m ts now).2 =
      (if pairCond st now then { st with last_code := none } else st) := by
  unfold process_marker
  simp only [hm, Bool.false_eq_true, if_false]
  cases hp : pairCond st now with
  | true =>
    simp [hp]
    split_ifs <;> simp
  | false =>
    simp [hp]
    split_ifs <;> simp

/-- The category assigned by `process_marker` is exactly the source's
substring-rule chain, independent of the receiver state and of the clocks. -/
theorem process_marker_type (st : ReceiverState) (m : String) (ts now : ℤ) :
    (process_marker st m ts now).1.marker_type =
      (if strStartsWith m "CODE_" then MarkerType.CODE
       else if containsSub m "trial_start_" then MarkerType.TRIAL
       else if containsSub m "response_" then MarkerType.RESPONSE
       else if containsSub m "block_" then MarkerType.BLOCK
       else if containsSub m "neutral_block" then MarkerType.NEUTRAL
       else if m = "experiment_start" ∨ m = "experiment_end" then MarkerType.EXPERIMENT
       else MarkerType.SYSTEM) := by
  unfold process_marker
  cases h0 : strStartsWith m "CODE_" with
  | true => simp [h0]
  | false =>
    simp [h0]
    cases hp : pairCond st now with
    | true =>
      simp [hp]
      split_ifs <;> rfl
    | false =>
      simp [hp]
      split_ifs <;> rfl

/-! ## Claim theorems -/

/-- Claim C1: a CODE marker caches its numeric code with its arrival time; a
subsequent non-CODE marker arriving strictly within the 0.1 s (100 ms) pairing
window is stamped with the cached code and clears the pending code, while one
arriving 0.1 s or later gets no `numeric_code`. Concretely, after `CODE_101` at
t = 0 ms, a `trial_start_red` at t = 50 ms carries numeric code `101`, and at
t = 200 ms it carries none. -/
theorem code_pairing_correlation :
    (∀ (st : ReceiverState) (c m : String) (ts now : ℤ),
      st.last_code = some c → c ≠ "" → strStartsWith m "CODE_" = false →
      ((now - st.last_code_time < pairing_window →
          (process_marker st m ts now).1.numeric_code = some c ∧
          (process_marker st m ts now).2.last_code = none) ∧
       (pairing_window ≤ now - st.last_code_time →
          (process_marker st m ts now).1.numeric_code = none))) ∧
    ((runLoop initState [LoopEvent.sample "CODE_101" 0 0,
        LoopEvent.sample "trial_start_red" 50 50]).data.map Record.numeric_code)[1]? =
      some (some "101") ∧
    ((runLoop initState [LoopEvent.sample "CODE_101" 0 0,
        LoopEvent.sample "trial_start_red" 200 200]).data.map Record.numeric_code)[1]? =
      some none := by
  refine ⟨?_, by decide, by decide⟩
  intro st c m ts now hst hc hm
  have hnc := process_marker_noncode st m ts now hm
  constructor
  · intro hwin
    have hp : pairCond st now = true := by
      unfold pairCond
      rw [hst]
      simp [hc, hwin]
    rw [hnc.1, hnc.2, hp]
    simp [hst]
  · intro hlate
    have hp : pairCond st now = false := by
      unfold pairCond
      rw [hst]
      simp [not_lt.mpr hlate]
    rw [hnc.1, hp]
    simp

/-- Witness for C1: with code `101` cached at time 0, a `trial_start_red`
processed at 50 ms pairs with `101` and clears the pending code. -/
theorem code_pairing_correlation_witness :
    ({ session_start := 0, last_code := some "101", last_code_time := 0,
       data := [] } : ReceiverState).last_code = some "101" ∧
    ("101" : String) ≠ "" ∧
    strStartsWith "trial_start_red" "CODE_" = false ∧
    (50 : ℤ) - 0 < pairing_window ∧
    (process_marker
      { session_start := 0, last_code := some "101", last_code_time := 0, data := [] }
      "trial_start_red" 50 50).1.numeric_code = some "101" ∧
    (process_marker
      { session_start := 0, last_code := some "101", last_code_time := 0, data := [] }
      "trial_start_red" 50 50).2.last_code = none := by
  refine ⟨rfl, by decide, by decide, by decide, ?_⟩
  exact (code_pairing_correlation.1
    { session_start := 0, last_code := some "101", last_code_time := 0, data := [] }
    "101" "trial_start_red" 50 50 rfl (by decide) (by decide)).1 (by decide)

/-- Claim C2 (code behaviour at the failing input): the source computes
`response_correct` as `'correct' in marker`, and `correct` is a substring of
`incorrect`, so `response_r_incorrect` is classified RESPONSE with key `r` but
`response_correct = true` — against the spec's rule that `incorrect` is
excluded. -/
theorem response_incorrect_marked_correct :
    (process_marker initState "response_r_incorrect" 0 0).1.marker_type =
      MarkerType.RESPONSE ∧
    (process_marker initState "response_r_incorrect" 0 0).1.response_key = some "r" ∧
    (process_marker initState "response_r_incorrect" 0 0).1.response_correct =
      some true := by
  decide

/-- Claim C3: `push_sample` is total (always returns a boolean) and, while the
transport handle raises on send: every call with last-success age at most
3.0 s (3000 ms) returns false with no recovery attempt; once the age exceeds
3.0 s, each call makes exactly one `create_outlet` attempt, retries the send
exactly once more when creation succeeds, and returns true exactly when the
recreated transport's send succeeds. -/
theorem publish_recovery_policy :
    ∀ (s : PublisherState) (h : OutletHandle) (a : MarkerArg) (env : PushEnv),
      s.outlet = some h → h.sendOk = false →
      ((env.now - s.last_successful_send ≤ 3000 →
          (push_sample s a env).ok = false ∧
          (push_sample s a env).create_calls = 0) ∧
       (3000 < env.now - s.last_successful_send →
          (push_sample s a env).create_calls = 1 ∧
          ((push_sample s a env).ok = true ↔
            ∃ h2, env.recreated = some h2 ∧ h2.sendOk = true) ∧
          (∀ h2, env.recreated = some h2 →
            (push_sample s a env).wire =
              [normalize_marker a, normalize_marker a]))) := by
  intro s h a env hs hok
  unfold push_sample
  rw [hs]
  simp only [hok, Bool.false_eq_true, if_false]
  constructor
  · intro hle
    have hngt : ¬ (env.now - s.last_successful_send > 3000) := not_lt.mpr hle
    simp [hngt]
  · intro hgt
    simp only [gt_iff_lt, hgt, if_true]
    cases hr : env.recreated with
    | none => simp [hr]
    | some h2 =>
      cases hsk : h2.sendOk with
      | true => simp [hsk]
      | false => simp [hsk]

/-- Witness for C3: a broken transport, last success at 0, a call at 5000 ms
with a recreatable working transport: exactly one recovery attempt, and the
call returns true. -/
theorem publish_recovery_policy_witness :
    ({ outlet := some { sendOk := false }, last_successful_send := 0 } :
        PublisherState).outlet = some { sendOk := false } ∧
    ({ sendOk := false } : OutletHandle).sendOk = false ∧
    (3000 : ℤ) < 5000 - 0 ∧
    (push_sample { outlet := some { sendOk := false }, last_successful_send := 0 }
      (MarkerArg.str "x")
      { now := 5000, recreated := some { sendOk := true } }).create_calls = 1 ∧
    (push_sample { outlet := some { sendOk := false }, last_successful_send := 0 }
      (MarkerArg.str "x")
      { now := 5000, recreated := some { sendOk := true } }).ok = true := by
  refine ⟨rfl, rfl, by decide, ?_⟩
  have h := (publish_recovery_policy
    { outlet := some { sendOk := false }, last_successful_send := 0 }
    { sendOk := false } (MarkerArg.str "x")
    { now := 5000, recreated := some { sendOk := true } } rfl rfl).2 (by decide)
  exact ⟨h.1, h.2.1.mpr ⟨{ sendOk := true }, rfl, rfl⟩⟩

/-- Claim C4: `run` calls `save_data` exactly once on every trace (every exit
path of the ingest loop reaches the single `finally` block); when N records
have accumulated (N nonzero), the CSV carries exactly N data rows under the
header taken from the record field set, and the summary reports an accuracy
value exactly when at least one RESPONSE record exists. -/
theorem finalize_once_rows_accuracy :
    ∀ (st0 : ReceiverState) (events : List LoopEvent),
      (run st0 events).2 = 1 ∧
      ((runLoop st0 events).data ≠ [] →
        ∃ tl rs acc,
          (run st0 events).1 =
            SaveOutcome.saved recordFields (runLoop st0 events).data.length tl rs acc ∧
          rs = ((runLoop st0 events).data.filter
                  (fun d => d.marker_type == MarkerType.RESPONSE)).length ∧
          (acc = none ↔ rs = 0)) := by
  intro st0 events
  refine ⟨rfl, ?_⟩
  intro hne
  unfold run save_data
  have hde : (runLoop st0 events).data.isEmpty = false := by
    cases hd : (runLoop st0 events).data with
    | nil => exact absurd hd hne
    | cons a l => rfl
  rw [hde]
  simp only [Bool.false_eq_true, if_false]
  refine ⟨_, _, _, rfl, rfl, ?_⟩
  cases hr : ((runLoop st0 events).data.filter
      (fun d => d.marker_type == MarkerType.RESPONSE)).isEmpty with
  | true =>
    have : (runLoop st0 events).data.filter
        (fun d => d.marker_type == MarkerType.RESPONSE) = [] :=
      List.isEmpty_iff.mp hr
    simp [this]
  | false =>
    have : (runLoop st0 events).data.filter
        (fun d => d.marker_type == MarkerType.RESPONSE) ≠ [] := by
      intro hcon
      rw [hcon] at hr
      exact absurd hr (by decide)
    simp [hr, List.length_eq_zero, this]

/-- Witness for C4: an interrupt arrives mid-ingest after a trial and a
response record; the finalize outcome is a CSV of exactly those two rows with
an accuracy value, and the event after the interrupt is never ingested. -/
theorem finalize_once_rows_accuracy_witness :
    (runLoop initState
      [LoopEvent.sample "trial_start_red" 0 0,
       LoopEvent.sample "response_r_correct" 500 500,
       LoopEvent.interrupt,
       LoopEvent.sample "late_marker" 600 600]).data ≠ [] ∧
    ∃ tl rs acc,
      (run initState
        [LoopEvent.sample "trial_start_red" 0 0,
         LoopEvent.sample "response_r_correct" 500 500,
         LoopEvent.interrupt,
         LoopEvent.sample "late_marker" 600 600]).1 =
        SaveOutcome.saved recordFields
          (runLoop initState
            [LoopEvent.sample "trial_start_red" 0 0,
             LoopEvent.sample "response_r_correct" 500 500,
             LoopEvent.interrupt,
             LoopEvent.sample "late_marker" 600 600]).data.length tl rs acc ∧
      rs = ((runLoop initState
              [LoopEvent.sample "trial_start_red" 0 0,
               LoopEvent.sample "response_r_correct" 500 500,
               LoopEvent.interrupt,
               LoopEvent.sample "late_marker" 600 600]).data.filter
              (fun d => d.marker_type == MarkerType.RESPONSE)).length ∧
      (acc = none ↔ rs = 0) :=
  ⟨by decide,
    (finalize_once_rows_accuracy initState
      [LoopEvent.sample "trial_start_red" 0 0,
       LoopEvent.sample "response_r_correct" 500 500,
       LoopEvent.interrupt,
       LoopEvent.sample "late_marker" 600 600]).2 (by decide)⟩

/-- Claim C5: `send_event_code 900 "SYSTEM_INIT"` submits exactly two payloads;
the first is the zero-padded tag `CODE_900`, which decodes to a CODE record
with numeric code `900`; the second carries the description at a timestamp
strictly greater than the first by exactly the fixed epsilon (0.001 s = 1 ms). -/
theorem encode_code_round_trip :
    ∀ t : ℤ,
      (send_event_code 900 "SYSTEM_INIT" t).length = 2 ∧
      (send_event_code 900 "SYSTEM_INIT" t)[0]? = some ("CODE_900", t) ∧
      (send_event_code 900 "SYSTEM_INIT" t)[1]? = some ("SYSTEM_INIT", t + 1) ∧
      (process_marker initState "CODE_900" 0 0).1.marker_type = MarkerType.CODE ∧
      (process_marker initState "CODE_900" 0 0).1.numeric_code = some "900" ∧
      t < t + 1 ∧ (t + 1) - t = 1 := by
  intro t
  refine ⟨rfl, rfl, rfl, by decide, by decide, by omega, by omega⟩

/-- C6 counterexample: publishing an empty list normalizes to the empty string,
and the send succeeds — an empty payload is placed on the wire, so the
never-empty payload invariant fails for this input. -/
theorem empty_seq_payload_on_wire :
    (push_sample { outlet := some { sendOk := true }, last_successful_send := 0 }
        (MarkerArg.seq []) { now := 1, recreated := none }).ok = true ∧
    (push_sample { outlet := some { sendOk := true }, last_successful_send := 0 }
        (MarkerArg.seq []) { now := 1, recreated := none }).wire = [""] ∧
    String.length "" = 0 := by
  decide

/-- Claim C6 (amended): every payload handed to the transport equals the
normalized marker — the first field of a structured argument, the empty string
for an empty list/tuple, the string itself for a string argument — hence the
payload is non-empty exactly when that normalized value is, and not for every
input. -/
theorem wire_payload_normalization :
    (∀ (s : PublisherState) (a : MarkerArg) (env : PushEnv) (p : String),
        p ∈ (push_sample s a env).wire → p = normalize_marker a) ∧
    (∀ (x : String) (xs : List String),
        normalize_marker (MarkerArg.seq (x :: xs)) = x) ∧
    normalize_marker (MarkerArg.seq []) = "" ∧
    (∀ s, normalize_marker (MarkerArg.str s) = s) := by
  refine ⟨?_, fun x xs => rfl, rfl, fun s => rfl⟩
  intro s a env p hp
  unfold push_sample at hp
  rcases s with ⟨outlet, last⟩
  cases outlet with
  | none => simp at hp
  | some h =>
    cases hs : h.sendOk with
    | true =>
      simp [hs] at hp
      exact hp
    | false =>
      simp only [hs, Bool.false_eq_true, if_false] at hp
      split_ifs at hp with hgt
      · cases hr : env.recreated with
        | none =>
          rw [hr] at hp
          simp at hp
          exact hp
        | some h2 =>
          rw [hr] at hp
          cases hsk : h2.sendOk with
          | true =>
            simp [hsk] at hp
            exact hp
          | false =>
            simp [hsk] at hp
            exact hp
      · simp at hp
        exact hp

/-- Witness for C6 (amended): a successful publish of the string `hello`
places exactly the normalized payload on the wire. -/
theorem wire_payload_normalization_witness :
    "hello" ∈ (push_sample { outlet := some { sendOk := true }, last_successful_send := 0 }
      (MarkerArg.str "hello") { now := 1, recreated := none }).wire ∧
    "hello" = normalize_marker (MarkerArg.str "hello") :=
  ⟨by decide,
    wire_payload_normalization.1
      { outlet := some { sendOk := true }, last_successful_send := 0 }
      (MarkerArg.str "hello") { now := 1, recreated := none } "hello" (by decide)⟩

/-- Claim C7: any payload that is not a CODE tag and matches no category
keyword is classified SYSTEM, whatever the receiver state and clocks; the
decode path is a total function, so no payload raises. -/
theorem unmatched_payload_system :
    ∀ (st : ReceiverState) (m : String) (ts now : ℤ),
      strStartsWith m "CODE_" = false →
      containsSub m "trial_start_" = false →
      containsSub m "response_" = false →
      containsSub m "block_" = false →
      containsSub m "neutral_block" = false →
      m ≠ "experiment_start" → m ≠ "experiment_end" →
      (process_marker st m ts now).1.marker_type = MarkerType.SYSTEM := by
  intro st m ts now h1 h2 h3 h4 h5 h6 h7
  rw [process_marker_type]
  simp [h1, h2, h3, h4, h5, h6, h7]

/-- Witness for C7: the heartbeat payload `KEEPALIVE` matches no rule and is
classified SYSTEM. -/
theorem unmatched_payload_system_witness :
    strStartsWith "KEEPALIVE" "CODE_" = false ∧
    containsSub "KEEPALIVE" "trial_start_" = false ∧
    containsSub "KEEPALIVE" "response_" = false ∧
    containsSub "KEEPALIVE" "block_" = false ∧
    containsSub "KEEPALIVE" "neutral_block" = false ∧
    ("KEEPALIVE" : String) ≠ "experiment_start" ∧
    ("KEEPALIVE" : String) ≠ "experiment_end" ∧
    (process_marker initState "KEEPALIVE" 0 0).1.marker_type = MarkerType.SYSTEM :=
  ⟨by decide, by decide, by decide, by decide, by decide, by decide, by decide,
    unmatched_payload_system initState "KEEPALIVE" 0 0 (by decide) (by decide)
      (by decide) (by decide) (by decide) (by decide) (by decide)⟩

/-- Claim C8: the pending code is never expired by time alone — a CODE marker
always overwrites the cache whatever the elapsed time, a non-CODE marker
outside the window leaves the cache untouched, and a late marker that falls
within 0.1 s of a second CODE marker pairs with the newer code (`202`), not
the first (`101`). -/
theorem pending_code_persistence :
    (∀ (st : ReceiverState) (m : String) (ts now : ℤ),
      strStartsWith m "CODE_" = true →
      (process_marker st m ts now).2.last_code = some (pyReplace m "CODE_" "") ∧
      (process_marker st m ts now).2.last_code_time = now) ∧
    (∀ (st : ReceiverState) (c m : String) (ts now : ℤ),
      st.last_code = some c → strStartsWith m "CODE_" = false →
      pairing_window ≤ now - st.last_code_time →
      (process_marker st m ts now).2.last_code = some c) ∧
    ((runLoop initState [LoopEvent.sample "CODE_101" 0 0,
        LoopEvent.sample "CODE_202" 5000 5000,
        LoopEvent.sample "trial_start_red" 5050 5050]).data.map
          Record.numeric_code)[2]? = some (some "202") := by
  refine ⟨?_, ?_, by decide⟩
  · intro st m ts now hm
    have h := (process_marker_code st m ts now hm).2.2
    rw [h]
    exact ⟨rfl, rfl⟩
  · intro st c m ts now hst hm hlate
    have hp : pairCond st now = false := by
      unfold pairCond
      rw [hst]
      simp [not_lt.mpr hlate]
    rw [(process_marker_noncode st m ts now hm).2, hp]
    simp [hst]

/-- Witness for C8: with code `101` cached at time 0, a `trial_start_red`
processed at 200 ms (outside the window) leaves the pending code in place. -/
theorem pending_code_persistence_witness :
    ({ session_start := 0, last_code := some "101", last_code_time := 0,
       data := [] } : ReceiverState).last_code = some "101" ∧
    strStartsWith "trial_start_red" "CODE_" = false ∧
    pairing_window ≤ (200 : ℤ) - 0 ∧
    (process_marker
      { session_start := 0, last_code := some "101", last_code_time := 0, data := [] }
      "trial_start_red" 0 200).2.last_code = some "101" :=
  ⟨rfl, by decide, by decide,
    pending_code_persistence.2.1
      { session_start := 0, last_code := some "101", last_code_time := 0, data := [] }
      "101" "trial_start_red" 0 200 rfl (by decide) (by decide)⟩

/-- C9 counterexample: `neutral_blockx` is classified NEUTRAL yet does not end
in `neutral_block`, refuting the claim's gloss that NEUTRAL payloads end
exactly in `neutral_block`. -/
theorem neutral_without_terminal_suffix :
    (process_marker initState "neutral_blockx" 0 0).1.marker_type =
      MarkerType.NEUTRAL ∧
    strEndsWith "neutral_blockx" "neutral_block" = false := by
  decide

/-- Claim C9 (amended): the `block_` rule precedes the `neutral_block` rule,
so the publisher's neutral-block payloads `neutral_block_1_start` and
`neutral_block_start` are classified BLOCK; NEUTRAL is reachable only for a
payload that contains `neutral_block`, does not contain `block_`, and matches
no higher-priority rule. -/
theorem block_priority_neutral_reachability :
    (process_marker initState "neutral_block_1_start" 0 0).1.marker_type =
      MarkerType.BLOCK ∧
    (process_marker initState "neutral_block_start" 0 0).1.marker_type =
      MarkerType.BLOCK ∧
    (∀ (st : ReceiverState) (m : String) (ts now : ℤ),
      (process_marker st m ts now).1.marker_type = MarkerType.NEUTRAL →
      strStartsWith m "CODE_" = false ∧
      containsSub m "trial_start_" = false ∧
      containsSub m "response_" = false ∧
      containsSub m "block_" = false ∧
      containsSub m "neutral_block" = true) := by
  refine ⟨by decide, by decide, ?_⟩
  intro st m ts now h
  rw [process_marker_type] at h
  split_ifs at h with h1 h2 h3 h4 h5 h6
  all_goals simp_all

/-- Witness for C9 (amended): the bare payload `neutral_block` is NEUTRAL and
satisfies exactly the reachability conditions. -/
theorem block_priority_neutral_reachability_witness :
    (process_marker initState "neutral_block" 0 0).1.marker_type =
      MarkerType.NEUTRAL ∧
    (strStartsWith "neutral_block" "CODE_" = false ∧
     containsSub "neutral_block" "trial_start_" = false ∧
     containsSub "neutral_block" "response_" = false ∧
     containsSub "neutral_block" "block_" = false ∧
     containsSub "neutral_block" "neutral_block" = true) :=
  ⟨by decide,
    block_priority_neutral_reachability.2.2 initState "neutral_block" 0 0 (by decide)⟩

/-- Claim C10: with no transport handle (creation never succeeded),
`push_sample` returns false immediately — unchanged state, nothing on the
wire, no recovery — whatever the elapsed time; and any call that makes a
recovery attempt must have held a handle whose send raised. -/
theorem publish_no_outlet :
    (∀ (last : ℤ) (a : MarkerArg) (env : PushEnv),
        push_sample { outlet := none, last_successful_send := last } a env =
          { ok := false,
            state := { outlet := none, last_successful_send := last },
            wire := [], create_calls := 0 }) ∧
    (∀ (s : PublisherState) (a : MarkerArg) (env : PushEnv),
        (push_sample s a env).create_calls ≠ 0 →
        ∃ h, s.outlet = some h ∧ h.sendOk = false) := by
  refine ⟨fun last a env => rfl, ?_⟩
  intro s a env hcc
  rcases s with ⟨outlet, last⟩
  cases outlet with
  | none => simp [push_sample] at hcc
  | some h =>
    cases hs : h.sendOk with
    | true => simp [push_sample, hs] at hcc
    | false => exact ⟨h, rfl, hs⟩

/-- Witness for C10: a call with a broken handle well past the threshold makes
a nonzero number of recovery attempts, and the handle's send indeed raises. -/
theorem publish_no_outlet_witness :
    (push_sample { outlet := some { sendOk := false }, last_successful_send := 0 }
      (MarkerArg.str "x") { now := 5000, recreated := none }).create_calls ≠ 0 ∧
    ∃ h, ({ outlet := some { sendOk := false }, last_successful_send := 0 } :
        PublisherState).outlet = some h ∧ h.sendOk = false :=
  ⟨by decide,
    publish_no_outlet.2
      { outlet := some { sendOk := false }, last_successful_send := 0 }
      (MarkerArg.str "x") { now := 5000, recreated := none } (by decide)⟩

end Stroop
